import Mathlib

/-!
Verification model of the Figma design-generation plugin
(`src/figma/code.ts`).  The TypeScript source is shallowly embedded:
pure functions become Lean functions, the mutable font-cache set and the
UI message stream become explicit state / output values, and the remote
service plus the host editor are abstracted as oracle parameters.
JavaScript truthiness (`||`, ternaries on strings) and null-coalescing
(`??`) are modelled by the helpers below; machine numbers are `Int`
(scene geometry) and `ℚ` (normalized color channels).
-/

/-- JavaScript truthiness of an optional string: `undefined` and `""` are falsy. -/
def jsTruthyStr (o : Option String) : Bool :=
  match o with
  | none => false
  | some s => !s.isEmpty

/-- JavaScript `o || d` on an optional string: returns `d` when `o` is falsy. -/
def jsStr (o : Option String) (d : String) : String :=
  match o with
  | none => d
  | some s => if s.isEmpty then d else s

/-- JavaScript `o || d` on an optional number: `undefined` and `0` are falsy. -/
def jsOrInt (o : Option Int) (d : Int) : Int :=
  match o with
  | none => d
  | some n => if n = 0 then d else n

/-- Characters stripped by JavaScript `String.prototype.trim` (the ASCII ones;
the inputs of this development contain no exotic Unicode spaces). -/
def jsWhitespace (c : Char) : Bool :=
  c = ' ' || c = '\t' || c = '\n' || c = '\r' || c = '\x0b' || c = '\x0c'

/-- Trim JS whitespace from both ends of a character list. -/
def trimL (l : List Char) : List Char :=
  ((l.dropWhile jsWhitespace).reverse.dropWhile jsWhitespace).reverse

/-- JavaScript `str.replace(c, '')` with a one-character string pattern:
removes the first occurrence only. -/
def removeFirst (c : Char) : List Char → List Char
  | [] => []
  | x :: rest => if x = c then rest else x :: removeFirst c rest

/-- Value of a single hexadecimal digit, if the character is one. -/
def hexDigitVal (c : Char) : Option Nat :=
  if '0' ≤ c ∧ c ≤ '9' then some (c.toNat - 48)
  else if 'a' ≤ c ∧ c ≤ 'f' then some (c.toNat - 87)
  else if 'A' ≤ c ∧ c ≤ 'F' then some (c.toNat - 55)
  else none

/-- Accumulate the leading run of hex digits (JS `parseInt` ignores the tail). -/
def hexDigitsVal : List Char → Nat → Nat
  | [], acc => acc
  | c :: rest, acc =>
      match hexDigitVal c with
      | some d => hexDigitsVal rest (acc * 16 + d)
      | none => acc

/-- Strip an optional `0x` / `0X` prefix, as JS `parseInt(_, 16)` does. -/
def strip0x : List Char → List Char
  | '0' :: 'x' :: rest => rest
  | '0' :: 'X' :: rest => rest
  | l => l

/-- Parse the leading hex-digit run; `none` models the `NaN` result when no
digit is present. -/
def parseIntHexCore (l : List Char) : Option Nat :=
  match l with
  | [] => none
  | c :: _ => if (hexDigitVal c).isSome then some (hexDigitsVal l 0) else none

/-- JavaScript `parseInt(s, 16)`: leading whitespace, optional sign, optional
`0x` prefix, then the longest hex-digit run; `none` models `NaN`. -/
def parseIntHex (s : List Char) : Option Int :=
  match s.dropWhile jsWhitespace with
  | [] => none
  | c :: rest =>
      if c = '-' then (parseIntHexCore (strip0x rest)).map (fun n => -(n : Int))
      else if c = '+' then (parseIntHexCore (strip0x rest)).map (fun n => (n : Int))
      else (parseIntHexCore (strip0x (c :: rest))).map (fun n => (n : Int))

/-- Normalized RGB triple, each channel in `[0,1]` (host convention). -/
structure RGB where
  r : ℚ
  g : ℚ
  b : ℚ
deriving DecidableEq, Repr

/-- Byte-extraction stage of the color codec `hexToRgb`: drop the first `#`,
trim, a 3-character string goes through `.repeat(2)` (the whole string
twice), then `parseInt(_, 16)` and the `>> / & 255` chain reading the three
bytes of the 32-bit pattern (a failed parse — `NaN` — behaves as `0` under
JS `ToInt32`). -/
def hexBytes (hex : String) : Nat × Nat × Nat :=
  let normalized := trimL (removeFirst '#' hex.data)
  let digits := if normalized.length = 3 then normalized ++ normalized else normalized
  let bigint : Int := (parseIntHex digits).getD 0
  let u : Nat := (bigint % (2 ^ 32 : Int)).toNat
  (u / 2 ^ 16 % 256, u / 2 ^ 8 % 256, u % 256)

/-- Normalization stage of `hexToRgb`: each byte divided by 255. -/
def rgbOfBytes (t : Nat × Nat × Nat) : RGB :=
  ⟨(t.1 : ℚ) / 255, (t.2.1 : ℚ) / 255, (t.2.2 : ℚ) / 255⟩

/-- The color codec `hexToRgb` from the source, staged as byte extraction
followed by `/255` normalization. -/
def hexToRgb (hex : String) : RGB := rgbOfBytes (hexBytes hex)

/-- What the spec's digit-duplication rule prescribes for a 3-digit form:
each digit doubled in place (`abc` ↦ `aabbcc`). -/
def digitDoubled (l : List Char) : List Char :=
  match l with
  | [] => []
  | c :: rest => c :: c :: digitDoubled rest

/-- Opening marker of a fenced json block. -/
def fenceOpenTag : List Char := "```json".data

/-- Closing marker of a fenced block. -/
def fenceCloseTag : List Char := "```".data

/-- Scan for the earliest closing fence, returning the (lazy, shortest)
interior before it, as the regex `([\s\S]*?)` + closing backticks does. -/
def scanToClose : List Char → Option (List Char)
  | [] => none
  | c :: rest =>
      if fenceCloseTag.isPrefixOf (c :: rest) then some []
      else (scanToClose rest).map (fun l => c :: l)

/-- Leftmost match of the regex from the source (open tag, lazy interior,
closing backticks): try each start position in order; at a start position
whose open tag has no later close, move on — exactly the regex backtracking. -/
def findFence : List Char → Option (List Char)
  | [] => none
  | c :: rest =>
      if fenceOpenTag.isPrefixOf (c :: rest) then
        match scanToClose ((c :: rest).drop 7) with
        | some interior => some interior
        | none => findFence rest
      else findFence rest

/-- Fallback branch of `extractJson`: first brace to last brace, inclusive,
when the latter strictly follows the former. -/
def braceSlice (l : List Char) : Option String :=
  match l.findIdx? (· = '\x7b') with
  | none => none
  | some i =>
      match l.reverse.findIdx? (· = '\x7d') with
      | none => none
      | some rj =>
          let j := l.length - 1 - rj
          if i < j then some (String.mk ((l.drop i).take (j + 1 - i))) else none

/-- The response extractor `extractJson` from the source.  An empty input is
falsy and yields `none`; a fenced-json match with a *truthy* (non-empty)
capture group yields its trimmed interior; otherwise the brace fallback. -/
def extractJson (text : String) : Option String :=
  let l := text.data
  if l.isEmpty then none
  else
    match findFence l with
    | some interior =>
        if interior.isEmpty then braceSlice l else some (String.mk (trimL interior))
    | none => braceSlice l

/-- Modelled from the amended claim wording for the extractor: a fenced json
block whose interior is non-empty wins; an absent fence — or one whose
interior is the empty string — falls back to the first-brace/last-brace rule;
otherwise no result. -/
def extractJsonAmended (text : String) : Option String :=
  match findFence text.data with
  | some interior =>
      if interior = [] then braceSlice text.data
      else some (String.mk (trimL interior))
  | none => braceSlice text.data

/-- Scalar fields of a `BlueprintNode` descriptor from the source interface;
every field the untrusted JSON may omit is an `Option`. -/
structure BlueprintNodeData where
  type : String
  title : Option String := none
  content : Option String := none
  x : Option Int := none
  y : Option Int := none
  width : Option Int := none
  height : Option Int := none
  fontSize : Option Int := none
  fontWeight : Option String := none
  color : Option String := none
  fill : Option String := none
  stroke : Option String := none
  cornerRadius : Option Int := none
  spacing : Option Int := none

/-- A `BlueprintNode`: its scalar fields plus the optional recursive `nodes`
list (absent and `[]` behave identically in every consumer, so the list
alone carries it). -/
inductive BlueprintNode where
  | node : BlueprintNodeData → List BlueprintNode → BlueprintNode

/-- Scalar data of a blueprint node. -/
def BlueprintNode.dataOf : BlueprintNode → BlueprintNodeData
  | .node d _ => d

/-- Child descriptor list of a blueprint node (the `nodes` field). -/
def BlueprintNode.childrenOf : BlueprintNode → List BlueprintNode
  | .node _ ns => ns

/-- A `BlueprintFrame` descriptor from the source interface. -/
structure BlueprintFrame where
  name : Option String := none
  description : Option String := none
  width : Option Int := none
  height : Option Int := none
  background : Option String := none
  nodes : Option (List BlueprintNode) := none

/-- The parsed `GeminiBlueprint`; the untrusted payload may lack `frames`. -/
structure GeminiBlueprint where
  frames : Option (List BlueprintFrame) := none

/-- Length read by the guard `!blueprint?.frames?.length`. -/
def framesLen (b : GeminiBlueprint) : Nat := (b.frames.getD []).length

/-- Properties the renderer sets on a created text primitive; fields the
block renderer leaves at host defaults are `none`. -/
structure TextProps where
  characters : String
  fontStyle : String
  fontSize : Int
  x : Option Int := none
  y : Option Int := none
  width : Option Int := none
  height : Option Int := none
  color : RGB

/-- Properties the renderer sets on a created frame container (top-level
frame or block); fields only blocks set are `none` on top-level frames. -/
structure FrameProps where
  name : String
  x : Int
  y : Int
  width : Int
  height : Int
  fill : RGB
  stroke : Option RGB := none
  cornerRadius : Option Int := none
  padding : Option Int := none
  itemSpacing : Option Int := none
  vertical : Bool := false

/-- A rendered scene node owned by the host editor: a text primitive or a
frame container with its appended children, in append order. -/
inductive Scene where
  | text : TextProps → Scene
  | frame : FrameProps → List Scene → Scene

/-- Children of a scene node. -/
def sceneKids : Scene → List Scene
  | .text _ => []
  | .frame _ cs => cs

/-- The x coordinate a scene node was given, when one was set. -/
def sceneXOpt : Scene → Option Int
  | .text tp => tp.x
  | .frame fp _ => some fp.x

/-- The (x, y) position a scene node was given, when both were set. -/
def scenePos : Scene → Option (Int × Int)
  | .text tp =>
      match tp.x, tp.y with
      | some a, some b => some (a, b)
      | _, _ => none
  | .frame fp _ => some (fp.x, fp.y)

/-- Whether a scene node is a container (frame), as opposed to a text. -/
def Scene.isContainer : Scene → Bool
  | .text _ => false
  | .frame _ _ => true

mutual
/-- Number of proper descendants of a scene node. -/
def Scene.descCount : Scene → Nat
  | .text _ => 0
  | .frame _ cs => sceneListCount cs

/-- Total number of scene nodes in a forest, descendants included. -/
def sceneListCount : List Scene → Nat
  | [] => 0
  | s :: rest => 1 + Scene.descCount s + sceneListCount rest
end

/-- Shape of a scene subtree: text leaves keep their characters, containers
keep their name — enough to pin creation order and parenting. -/
inductive Shape where
  | t : String → Shape
  | f : String → List Shape → Shape

mutual
/-- Erase a scene node to its shape. -/
def sceneShape : Scene → Shape
  | .text tp => .t tp.characters
  | .frame fp cs => .f fp.name (sceneShapeList cs)

/-- Erase a scene forest to its shapes. -/
def sceneShapeList : List Scene → List Shape
  | [] => []
  | s :: rest => sceneShape s :: sceneShapeList rest
end

/-- Navigate a scene tree along child indices. -/
def sceneAt (s : Scene) : List Nat → Option Scene
  | [] => some s
  | i :: rest => ((sceneKids s).get? i).bind (fun c => sceneAt c rest)

/-- Key stored by the font cache: the source interns `Inter-` + style. -/
def fontKey (style : String) : String := "Inter-" ++ style

/-- One call of `ensureFont` on the mutable `loadedFonts` set (modelled as a
list of keys): returns the new set and how many `loadFontAsync` calls the
call triggered (0 or 1). -/
def ensureFont (loaded : List String) (style : String) : List String × Nat :=
  if fontKey style ∈ loaded then (loaded, 0)
  else (loaded ++ [fontKey style], 1)

/-- Run a session of `ensureFont` calls from a starting cache, tallying the
triggered font loads. -/
def runEnsures (loaded : List String) : List String → List String × Nat
  | [] => (loaded, 0)
  | s :: rest =>
      let r := ensureFont loaded s
      let r2 := runEnsures r.1 rest
      (r2.1, r.2 + r2.2)

/-- The weight-token → concrete style mapping used by `createTextNode`:
`bold` ↦ `Bold`, `semi-bold` ↦ `Semi Bold`, everything else ↦ `Medium`. -/
def styleOfWeight (fw : Option String) : String :=
  if fw = some "bold" then "Bold"
  else if fw = some "semi-bold" then "Semi Bold"
  else "Medium"

/-- Displayed characters assembled by `createTextNode`:
`(node.title ? title + "\n" : "") + (node.content ?? "")`. -/
def textChars (d : BlueprintNodeData) : String :=
  (if jsTruthyStr d.title then d.title.getD "" ++ "\n" else "") ++ d.content.getD ""

/-- The text-node renderer `createTextNode` (its `ensureFont` side effect is
tracked separately by the font-cache model; font loading never alters the
produced scene node). -/
def createTextNode (d : BlueprintNodeData) : Scene :=
  .text {
    characters := textChars d
    fontStyle := styleOfWeight d.fontWeight
    fontSize := d.fontSize.getD 16
    x := some (d.x.getD 32)
    y := some (d.y.getD 32)
    width := some (d.width.getD 520)
    height := some (d.height.getD 120)
    color := hexToRgb (jsStr d.color "#e9edf5") }

/-- Container properties set by `createBlockNode` before any children are
appended. -/
def blockProps (d : BlueprintNodeData) : FrameProps :=
  { name := jsStr d.title "Block"
    x := d.x.getD 32
    y := d.y.getD 32
    width := d.width.getD 520
    height := d.height.getD 220
    fill := hexToRgb (jsStr d.fill "#11141b")
    stroke := some (hexToRgb (jsStr d.stroke "#1f2633"))
    cornerRadius := some (d.cornerRadius.getD 14)
    padding := some 16
    itemSpacing := some (d.spacing.getD 12)
    vertical := true }

/-- The heading/body pair `createBlockNode` synthesizes when the descriptor
has a truthy title or content: title text always, body text only for truthy
content; these texts get no explicit position or box. -/
def blockHeaders (d : BlueprintNodeData) : List Scene :=
  if jsTruthyStr d.title || jsTruthyStr d.content then
    Scene.text {
      characters := jsStr d.title ""
      fontStyle := "Semi Bold"
      fontSize := 15
      color := hexToRgb (jsStr d.color "#e9edf5") }
    :: (if jsTruthyStr d.content then
          [Scene.text {
            characters := d.content.getD ""
            fontStyle := "Medium"
            fontSize := 13
            color := hexToRgb "#b7c0d1" }]
        else [])
  else []

/-- Object spread `{ ...node, x, y }` performed by the tree walker before
dispatching to a renderer. -/
def withXY : BlueprintNode → Int → Int → BlueprintNode
  | .node d ns, ex, ey => .node { d with x := some ex, y := some ey } ns

/-- Effective x of a sibling: `node.x ?? 40 + (index % 2) * 340 + depth * 16`. -/
def effX (d : BlueprintNodeData) (idx depth : Nat) : Int :=
  match d.x with
  | some v => v
  | none => 40 + ((idx % 2 : Nat) : Int) * 340 + (depth : Int) * 16

/-- Effective y of a sibling: `node.y ?? 120 + ⌊index / 2⌋ * 220`. -/
def effY (d : BlueprintNodeData) (idx : Nat) : Int :=
  match d.y with
  | some v => v
  | none => 120 + ((idx / 2 : Nat) : Int) * 220

mutual
/-- Structural size of a blueprint node, blind to its scalar fields. -/
def bsize : BlueprintNode → Nat
  | .node _ ns => 1 + bsizeL ns

/-- Structural size of a blueprint node list. -/
def bsizeL : List BlueprintNode → Nat
  | [] => 0
  | n :: rest => 1 + bsize n + bsizeL rest
end

/-- The spread preserves structural size. -/
theorem bsize_withXY (n : BlueprintNode) (ex ey : Int) :
    bsize (withXY n ex ey) = bsize n := by
  cases n with
  | node d ns => simp [withXY, bsize]

mutual
/-- The container renderer `createBlockNode`: styled container, synthesized
heading pair, then — when the descriptor declares children — the tree
walker on them with the source's literal depth expression
`(node.nodes?.length || 0) > 0 ? 1 : 0`. -/
def createBlockNode (n : BlueprintNode) : Scene :=
  .frame (blockProps n.dataOf)
    (blockHeaders n.dataOf ++
      (if n.childrenOf.length > 0 then
        placeNodes n.childrenOf (if n.childrenOf.length > 0 then 1 else 0) 0
      else []))
  termination_by bsize n
  decreasing_by
    cases n with
    | node d ns => simp only [BlueprintNode.childrenOf, bsize]; omega

/-- The tree walker `placeNodes`: per sibling, compute the effective
position, spread it into the descriptor, and dispatch — `text` to the text
renderer, every other kind (the listed ones and unknown ones alike) to the
block renderer. -/
def placeNodes (ns : List BlueprintNode) (depth idx : Nat) : List Scene :=
  match ns with
  | [] => []
  | n :: rest =>
      (if n.dataOf.type = "text" then
        createTextNode (withXY n (effX n.dataOf idx depth) (effY n.dataOf idx)).dataOf
      else
        createBlockNode (withXY n (effX n.dataOf idx depth) (effY n.dataOf idx)))
      :: placeNodes rest depth (idx + 1)
  termination_by bsizeL ns
  decreasing_by
    · rw [bsize_withXY]; simp only [bsizeL]; omega
    · simp only [bsizeL]; omega
end

/-- The synthesized heading descriptor the blueprint renderer passes to
`createTextNode` when a frame has a truthy description. -/
def headingNode (plan : BlueprintFrame) : BlueprintNodeData :=
  { type := "text"
    title := plan.name
    content := plan.description
    x := some 40
    y := some 32
    fontSize := some 18
    fontWeight := some "semi-bold"
    color := some "#e5e7eb" }

/-- The per-frame loop of `renderBlueprint`: each frame descriptor yields one
top-level frame container at the running `offsetX` (which then advances by
`width + 120`), vertically centered on the viewport (`cy - height / 2`;
exact for even heights — no claim touches the odd-height rounding of JS
float division).  A truthy description prepends the synthesized heading;
then the tree walker runs at depth 0 on `framePlan.nodes || []`. -/
def renderFrames (plans : List BlueprintFrame) (offsetX cy : Int) : List Scene :=
  match plans with
  | [] => []
  | plan :: rest =>
      let width := jsOrInt plan.width 1440
      let height := jsOrInt plan.height 1024
      let heading :=
        if jsTruthyStr plan.description then [createTextNode (headingNode plan)] else []
      Scene.frame
        { name := jsStr plan.name "Gemini Frame"
          x := offsetX
          y := cy - height / 2
          width := width
          height := height
          fill := hexToRgb (jsStr plan.background "#0b0d11") }
        (heading ++ placeNodes (plan.nodes.getD []) 0 0)
      :: renderFrames rest (offsetX + width + 120) cy

/-- `renderBlueprint`: render the frame list starting at
`viewport.center.x - 100`, and produce the host notification text whose
wording depends on the mode. -/
def renderBlueprint (frames : List BlueprintFrame) (mode : String) (cx cy : Int) :
    List Scene × String :=
  let out := renderFrames frames (cx - 100) cy
  (out,
    "Готово: " ++ toString out.length ++ " " ++
      (if mode = "screen" then "экрана" else "артефактов") ++ " добавлено.")

/-- Mode-specific directive table of `buildPrompt`; a mode outside the five
supported ones indexes the record as JS `undefined`. -/
def modeSpec (mode : String) : String :=
  if mode = "screen" then
    "Design application screens with hero section, navigation, cards, and CTAs. Keep spacing tight and copy concise."
  else if mode = "user-flow" then
    "Describe the journey as sequential swimlanes. Each card is a step with title, goal, and next action."
  else if mode = "personas" then
    "Provide 2-3 personas per frame with name, role, goals, pain points, tools. Use list nodes."
  else if mode = "architecture" then
    "Map subsystems and data flows. Use cards and callouts to describe responsibilities and integration touchpoints."
  else if mode = "storyboard" then
    "Lay out storyboard beats. Each card has scene title, what user sees, and emotion."
  else "undefined"

/-- Accent color constant from the source. -/
def DEFAULT_ACCENT : String := "#6de1d6"

/-- The prompt template `buildPrompt`, verbatim from the source with the
three interpolations (`userPrompt`, `mode` + its directive, `frameCount`
twice). -/
def buildPrompt (userPrompt mode : String) (frameCount : Int) : String :=
  let schema :=
    "\nReturn JSON with key \"frames\" (array length " ++ toString frameCount ++
    ") using this shape:\n\x7b\n  \"frames\": [\n    \x7b\n      \"name\": \"Concise frame title\",\n      \"description\": \"Short goal of this artifact\",\n      \"width\": 1440,\n      \"height\": 1024,\n      \"background\": \"#0b0d11\",\n      \"nodes\": [\n        \x7b\n          \"type\": \"text\" | \"panel\" | \"card\" | \"list\" | \"callout\",\n          \"title\": \"Heading text\",\n          \"content\": \"Body copy or bullet list. Keep copy short.\",\n          \"x\": 48,\n          \"y\": 48,\n          \"width\": 420,\n          \"height\": 120,\n          \"fontSize\": 15,\n          \"fontWeight\": \"regular\" | \"medium\" | \"semi-bold\" | \"bold\",\n          \"color\": \"#e9edf5\",\n          \"fill\": \"#11141b\",\n          \"cornerRadius\": 16,\n          \"spacing\": 12,\n          \"nodes\": [] // optional nested items for structure\n        \x7d\n      ]\n    \x7d\n  ]\n\x7d"
  "You are a Figma design planner. Reply with ONLY JSON (no markdown, no prose) following the schema. Use a modern dark UI palette (#0b0d11 background, #11141b surfaces, accent " ++
    DEFAULT_ACCENT ++ "). Keep copy succinct. Avoid emojis.\n\nUser intent: " ++
    userPrompt ++ "\nMode: " ++ mode ++ " (" ++ modeSpec mode ++
    ")\nFrames requested: " ++ toString frameCount ++ "\n\n" ++ schema

/-- Messages posted to the UI panel by the generation flow. -/
inductive UIMessage where
  | status : String → String → String → UIMessage
  | generationComplete : UIMessage
  | generationError : String → UIMessage
deriving DecidableEq, Repr

/-- Whether a UI message is the `generation-error` message. -/
def isGenError : UIMessage → Bool
  | .generationError _ => true
  | _ => false

/-- Number of `generation-error` messages in an emitted list. -/
def errCount (msgs : List UIMessage) : Nat := (msgs.filter isGenError).length

/-- Parameters of a `generate-design` request, as read off the UI message. -/
structure GenParams where
  prompt : String
  mode : String
  frameCount : Option Int := none
  apiKeyOverride : Option String := none

/-- The api-key resolution `params.apiKeyOverride?.trim() || storedKey`
followed by the `if (!apiKey)` guard: `none` means the falsy abort. -/
def resolveKey (ov : Option String) (storedKey : Option String) : Option String :=
  let fromStore :=
    match storedKey with
    | none => none
    | some s => if s.isEmpty then none else some s
  match ov with
  | none => fromStore
  | some s => if s.trim.isEmpty then fromStore else some s.trim

/-- Everything observable that one `generateDesign` call produces: the UI
messages in emission order, the frames appended to the canvas, the prompt
sent to the remote service (when the flow got that far), and the host
notification. -/
structure GenOutcome where
  messages : List UIMessage
  canvasFrames : List Scene := []
  sentPrompt : Option String := none
  hostNotice : Option String := none

/-- Error text thrown on an empty / missing `frames` array. -/
def emptyResultMsg : String := "Gemini вернул пустой ответ. Попробуйте уточнить запрос."

/-- The busy status posted before the remote call. -/
def preparingMsg : UIMessage := .status "Готовим запрос для Gemini 3 Pro..." "info" "busy"

/-- The busy status posted before rendering. -/
def drawingMsg : UIMessage := .status "Рисуем фреймы в тёмной теме..." "info" "busy"

/-- The generation flow `generateDesign`.  The remote call (`callGemini`:
fetch + extraction + `JSON.parse`) is abstracted as the oracle
`callOracle apiKey prompt`, whose `.error` covers transport, extraction and
parse failures (all thrown as `Error`s whose `.message` the catch reads).
`renderFailure` injects a host-API exception during the rendering phase.
The source's single try/catch around the whole flow becomes the explicit
error branches, each ending in exactly the messages the catch emits; the
function is total — nothing escapes it — mirroring that no exception
propagates out of `generateDesign`. -/
def generateDesign (p : GenParams) (storedKey : Option String)
    (callOracle : String → String → Except String GeminiBlueprint)
    (renderFailure : Option String) (cx cy : Int) : GenOutcome :=
  if p.prompt.isEmpty then
    { messages := [.status "Введите текстовое описание для генерации." "error" "idle"] }
  else
    match resolveKey p.apiKeyOverride storedKey with
    | none =>
        { messages :=
            [preparingMsg, .status "Укажите Gemini API key перед генерацией." "error" "idle"] }
    | some apiKey =>
        let prompt := buildPrompt p.prompt p.mode (jsOrInt p.frameCount 3)
        match callOracle apiKey prompt with
        | .error e =>
            { messages := [preparingMsg, .generationError e], sentPrompt := some prompt }
        | .ok blueprint =>
            if framesLen blueprint = 0 then
              { messages := [preparingMsg, .generationError emptyResultMsg]
                sentPrompt := some prompt }
            else
              match renderFailure with
              | some e =>
                  { messages := [preparingMsg, drawingMsg, .generationError e]
                    sentPrompt := some prompt }
              | none =>
                  let rendered := renderBlueprint (blueprint.frames.getD []) p.mode cx cy
                  { messages := [preparingMsg, drawingMsg, .generationComplete]
                    canvasFrames := rendered.1
                    sentPrompt := some prompt
                    hostNotice := some rendered.2 }

/-- Whether a failure arises inside the try block of `generateDesign` for a
given remote-call outcome and injected rendering failure. -/
def genFailure (res : Except String GeminiBlueprint) (renderFailure : Option String) : Bool :=
  match res with
  | .error _ => true
  | .ok b => decide (framesLen b = 0) || renderFailure.isSome

/-- After the cached key is present, further identical requests load nothing. -/
theorem runEnsures_mem (l : List String) (s : String) (h : fontKey s ∈ l) (M : Nat) :
    runEnsures l (List.replicate M s) = (l, 0) := by
  induction M with
  | zero => simp [runEnsures]
  | succ m ih => simp [List.replicate, runEnsures, ensureFont, h, ih]

/-- A non-empty run of identical `ensureFont` calls loads the font exactly
once when it is new, never when it is cached. -/
theorem runEnsures_replicate (l : List String) (s : String) (N : Nat) (h : 1 ≤ N) :
    runEnsures l (List.replicate N s) =
      if fontKey s ∈ l then (l, 0) else (l ++ [fontKey s], 1) := by
  cases N with
  | zero => omega
  | succ m =>
      by_cases hm : fontKey s ∈ l
      · rw [if_pos hm]; exact runEnsures_mem l s hm (m + 1)
      · rw [if_neg hm]
        have hmem : fontKey s ∈ l ++ [fontKey s] := by simp
        simp [List.replicate, runEnsures, ensureFont, hm, runEnsures_mem _ _ hmem]

/-- Session runs compose: the cache threads through, the load tallies add. -/
theorem runEnsures_append (l : List String) (a b : List String) :
    runEnsures l (a ++ b) =
      ((runEnsures (runEnsures l a).1 b).1,
        (runEnsures l a).2 + (runEnsures (runEnsures l a).1 b).2) := by
  induction a generalizing l with
  | nil => simp [runEnsures]
  | cons s rest ih => simp [runEnsures, ih]; omega

/-- The interned font keys are distinct exactly when the styles are. -/
theorem fontKey_inj {a b : String} : fontKey a = fontKey b ↔ a = b := by
  constructor
  · intro h
    have hd := congrArg String.data h
    simp only [fontKey, String.data_append] at hd
    exact String.ext (List.append_cancel_left hd)
  · intro h; rw [h]

/-- C1.  The code violates the claim: `hexToRgb` expands a 3-digit form with
`normalized.repeat(2)` — the whole string twice (`abc` ↦ `abcabc`) — not the
digit duplication the claim and the CSS shorthand convention prescribe
(`abc` ↦ `aabbcc`).  At the failing input `"abc"` the code yields the bytes
(0xab, 0xca, 0xbc) instead of (0xaa, 0xbb, 0xcc), so
`hexToRgb "abc" ≠ hexToRgb "aabbcc"`. -/
theorem hexToRgb_threeDigit_repeat_bug :
    hexToRgb "abc" = ⟨171 / 255, 202 / 255, 188 / 255⟩ ∧
    hexToRgb "#abc" = hexToRgb "abc" ∧
    String.mk (digitDoubled "abc".data) = "aabbcc" ∧
    hexToRgb "aabbcc" = ⟨170 / 255, 187 / 255, 204 / 255⟩ ∧
    hexToRgb "abc" ≠ hexToRgb "aabbcc" := by
  have h1 : hexBytes "abc" = (171, 202, 188) := by decide
  have h2 : hexBytes "#abc" = (171, 202, 188) := by decide
  have h3 : hexBytes "aabbcc" = (170, 187, 204) := by decide
  refine ⟨?_, ?_, by decide, ?_, ?_⟩
  · rw [hexToRgb, h1]; rfl
  · rw [hexToRgb, hexToRgb, h1, h2]
  · rw [hexToRgb, h3]; rfl
  · rw [hexToRgb, hexToRgb, h1, h3]
    intro h
    have hr := congrArg RGB.r h
    simp only [rgbOfBytes] at hr
    norm_num at hr

/-- C4 counterexample.  The distinct weight tokens `regular` and `medium`
both map to the concrete style `Medium`, so a session calling both triggers
a single font load, not one load each (which would be 2). -/
theorem ensureFont_distinct_tokens_counterexample :
    (runEnsures [] [styleOfWeight (some "regular"), styleOfWeight (some "medium")]).2 = 1 ∧
    (runEnsures [] [styleOfWeight (some "regular"), styleOfWeight (some "medium")]).2 ≠ 2 := by
  refine ⟨by decide, by decide⟩

/-- C4 amended.  Within one session: N ≥ 1 font-ensuring calls for one weight
token trigger the underlying load exactly once; calls for two distinct weight
tokens trigger one load per *distinct concrete style* — 2 loads when the
tokens map to different styles, but a single shared load when they map to the
same style (as `regular` and `medium` both do, to `Medium`). -/
theorem ensureFont_load_once_amended :
    (∀ (w : String) (N : Nat), 1 ≤ N →
      (runEnsures [] (List.replicate N (styleOfWeight (some w)))).2 = 1) ∧
    (∀ (w1 w2 : String) (N1 N2 : Nat), 1 ≤ N1 → 1 ≤ N2 →
      (runEnsures [] (List.replicate N1 (styleOfWeight (some w1)) ++
          List.replicate N2 (styleOfWeight (some w2)))).2 =
        if styleOfWeight (some w1) = styleOfWeight (some w2) then 1 else 2) := by
  constructor
  · intro w N h
    rw [runEnsures_replicate [] _ N h]
    simp
  · intro w1 w2 N1 N2 h1 h2
    rw [runEnsures_append, runEnsures_replicate [] _ N1 h1]
    simp only [List.not_mem_nil, if_false, List.nil_append]
    rw [runEnsures_replicate _ _ N2 h2]
    by_cases heq : styleOfWeight (some w1) = styleOfWeight (some w2)
    · rw [if_pos heq]
      have : fontKey (styleOfWeight (some w2)) ∈ [fontKey (styleOfWeight (some w1))] := by
        simp [heq]
      rw [if_pos this]
      rfl
    · rw [if_neg heq]
      have : fontKey (styleOfWeight (some w2)) ∉ [fontKey (styleOfWeight (some w1))] := by
        simp only [List.mem_singleton]
        intro hk
        exact heq (fontKey_inj.mp hk).symm
      rw [if_neg this]
      rfl

/-- C4 witness: three `bold` calls trigger one load, and a session of two
`semi-bold` calls followed by one `bold` call triggers two loads. -/
theorem ensureFont_load_once_amended_witness :
    (runEnsures [] (List.replicate 3 (styleOfWeight (some "bold")))).2 = 1 ∧
    (runEnsures [] (List.replicate 2 (styleOfWeight (some "semi-bold")) ++
        List.replicate 1 (styleOfWeight (some "bold")))).2 =
      if styleOfWeight (some "semi-bold") = styleOfWeight (some "bold") then 1 else 2 := by
  exact ⟨ensureFont_load_once_amended.1 "bold" 3 (by decide),
    ensureFont_load_once_amended.2 "semi-bold" "bold" 2 1 (by decide) (by decide)⟩

/-- C5 counterexample.  On the input "```json```" a fenced json block exists
(with empty interior), so the claim demands the trimmed interior `""`; but the
empty capture group is falsy in the source's `if (fenceMatch?.[1])`, the code
falls through to the brace rule, finds no brace, and returns nothing. -/
theorem extractJson_empty_fence_counterexample :
    extractJson "```json```" = none ∧ extractJson "```json```" ≠ some "" := by
  refine ⟨by decide, by decide⟩

/-- C5 amended.  The extractor's priority is: a fenced json block whose
interior is a *non-empty* string yields its trimmed interior; otherwise
(no fence, or a fence with empty interior) the first-`{`-to-last-`}`
substring when the latter follows the former; otherwise no result —
`extractJson` agrees with this policy (`extractJsonAmended`) on every input,
and on the claim's particulars: the fenced input yields the payload, the
prose-wrapped braces yield the brace span, fence-less brace-less text yields
nothing. -/
theorem extractJson_amended_policy :
    (∀ t : String, extractJson t = extractJsonAmended t) ∧
    extractJson "prefix ```json\n\x7b\"frames\":[]\x7d\n``` suffix" =
      some "\x7b\"frames\":[]\x7d" ∧
    extractJson "foo \x7b\"a\":1\x7d bar" = some "\x7b\"a\":1\x7d" ∧
    extractJson "no fence and no braces here" = none := by
  refine ⟨?_, by decide, by decide, by decide⟩
  intro t
  simp only [extractJson, extractJsonAmended]
  cases ht : t.data with
  | nil => simp [findFence, braceSlice, List.findIdx?]
  | cons c rest =>
      simp only [List.isEmpty, if_false]
      cases hf : findFence (c :: rest) with
      | none => simp
      | some interior =>
          cases interior with
          | nil => simp
          | cons i irest => simp [List.isEmpty]

/-- Loop body of the tree walker: one sibling at its index and depth. -/
def renderSibling (n : BlueprintNode) (idx depth : Nat) : Scene :=
  if n.dataOf.type = "text" then
    createTextNode (withXY n (effX n.dataOf idx depth) (effY n.dataOf idx)).dataOf
  else
    createBlockNode (withXY n (effX n.dataOf idx depth) (effY n.dataOf idx))

/-- The walker on an empty sibling list. -/
theorem placeNodes_nil (depth idx : Nat) : placeNodes [] depth idx = [] := by
  rw [placeNodes]

/-- The walker on a non-empty sibling list: head rendered at the current
index, tail walked with the index advanced. -/
theorem placeNodes_cons (n : BlueprintNode) (rest : List BlueprintNode) (depth idx : Nat) :
    placeNodes (n :: rest) depth idx =
      renderSibling n idx depth :: placeNodes rest depth (idx + 1) := by
  rw [placeNodes, renderSibling]

/-- Unfolding of the container renderer. -/
theorem createBlockNode_eq (n : BlueprintNode) :
    createBlockNode n =
      .frame (blockProps n.dataOf)
        (blockHeaders n.dataOf ++
          (if n.childrenOf.length > 0 then
            placeNodes n.childrenOf (if n.childrenOf.length > 0 then 1 else 0) 0
          else [])) := by
  rw [createBlockNode]

/-- A rendered sibling, text or container alike, carries the effective x. -/
theorem sceneXOpt_renderSibling (n : BlueprintNode) (idx depth : Nat) :
    sceneXOpt (renderSibling n idx depth) = some (effX n.dataOf idx depth) := by
  cases n with
  | node d ns =>
      by_cases h : d.type = "text"
      · simp [renderSibling, BlueprintNode.dataOf, h, withXY, createTextNode, sceneXOpt]
      · simp [renderSibling, BlueprintNode.dataOf, h, withXY, createBlockNode_eq,
          blockProps, sceneXOpt]

/-- A rendered sibling carries the effective (x, y) pair. -/
theorem scenePos_renderSibling (n : BlueprintNode) (idx depth : Nat) :
    scenePos (renderSibling n idx depth) =
      some (effX n.dataOf idx depth, effY n.dataOf idx) := by
  cases n with
  | node d ns =>
      by_cases h : d.type = "text"
      · simp [renderSibling, BlueprintNode.dataOf, h, withXY, createTextNode, scenePos]
      · simp [renderSibling, BlueprintNode.dataOf, h, withXY, createBlockNode_eq,
          blockProps, scenePos]

/-- Walker indexing: the i-th produced scene is the i-th descriptor rendered
at running index `idx + i` and the walker's own depth. -/
theorem placeNodes_get (ns : List BlueprintNode) (depth idx i : Nat) (hi : i < ns.length) :
    (placeNodes ns depth idx).get? i =
      some (renderSibling (ns.get ⟨i, hi⟩) (idx + i) depth) := by
  induction ns generalizing idx i with
  | nil => simp at hi
  | cons n rest ih =>
      cases i with
      | zero => simp [placeNodes_cons]
      | succ j =>
          have hj : j < rest.length := by simpa using hi
          simp only [placeNodes_cons, List.get?_cons_succ, ih (idx + 1) j hj]
          congr 2
          omega

/-- A falsy optional string makes `||` take its default. -/
theorem jsStr_of_falsy {o : Option String} (d : String) (h : jsTruthyStr o = false) :
    jsStr o d = d := by
  cases o with
  | none => rfl
  | some s =>
      simp only [jsTruthyStr, Bool.not_eq_false'] at h
      simp [jsStr, h]

/-- Fixture: a text descriptor with every optional field omitted. -/
def bareText : BlueprintNode := .node { type := "text" } []

/-- Fixture: a card holding one bare text child. -/
def cardInner : BlueprintNode := .node { type := "card" } [bareText]

/-- Fixture: a card holding `cardInner` — a container at nesting depth 1
once walked from depth 0. -/
def cardOuter : BlueprintNode := .node { type := "card" } [cardInner]

/-- C2 counterexample.  Walk `[cardOuter]` at depth 0: `cardOuter` sits at
depth 0, `cardInner` at depth 1, and `cardInner`'s text child (sibling
index 0, no x) is placed by `createBlockNode`'s walker call — whose depth
argument is the literal `1`, not `d + 1 = 2`.  The child's x is therefore
`40 + 0·340 + 1·16 = 56`, not the `40 + 0·340 + 2·16 = 72` the claim
demands. -/
theorem placeNodes_nested_depth_counterexample :
    ((placeNodes [cardOuter] 0 0).head?.bind (fun s => sceneAt s [0, 0])).bind sceneXOpt
        = some 56 ∧
    ((placeNodes [cardOuter] 0 0).head?.bind (fun s => sceneAt s [0, 0])).bind sceneXOpt
        ≠ some 72 := by
  have h : ((placeNodes [cardOuter] 0 0).head?.bind (fun s => sceneAt s [0, 0])).bind sceneXOpt
      = some 56 := by
    simp [placeNodes_cons, placeNodes_nil, renderSibling, cardOuter, cardInner, bareText,
      BlueprintNode.dataOf, BlueprintNode.childrenOf, withXY, effX, effY,
      createBlockNode_eq, blockHeaders, jsTruthyStr, blockProps, createTextNode,
      sceneAt, sceneKids, sceneXOpt]
  exact ⟨h, by rw [h]; decide⟩

/-- C2 amended.  Inside any rendered container, the declared children are
walked with the constant nesting depth 1 (independent of the container's own
depth), so the child at sibling index i with omitted x lands at
`40 + (i mod 2)·340 + 16`. -/
theorem createBlockNode_children_depth_one
    (d : BlueprintNodeData) (ns : List BlueprintNode) (i : Nat)
    (hi : i < ns.length) (hx : (ns.get ⟨i, hi⟩).dataOf.x = none) :
    ((sceneKids (createBlockNode (.node d ns))).get? ((blockHeaders d).length + i)).bind
        sceneXOpt
      = some (40 + ((i % 2 : Nat) : Int) * 340 + 16) := by
  have hlen : ns.length > 0 := Nat.lt_of_le_of_lt (Nat.zero_le i) hi
  rw [createBlockNode_eq]
  simp only [BlueprintNode.dataOf, BlueprintNode.childrenOf, sceneKids, hlen, if_pos]
  rw [List.get?_append_right (Nat.le_add_right _ i)]
  simp only [Nat.add_sub_cancel_left]
  rw [placeNodes_get ns _ 0 i hi]
  rw [Option.some_bind, sceneXOpt_renderSibling]
  simp only [Nat.zero_add, effX, hx]
  norm_num

/-- C2 witness: a bare card with one positionless text child — the child's
x is 40 + 16 = 56. -/
theorem createBlockNode_children_depth_one_witness :
    ((sceneKids (createBlockNode (.node { type := "card" } [bareText]))).get?
        ((blockHeaders { type := "card" }).length + 0)).bind sceneXOpt
      = some (40 + ((0 % 2 : Nat) : Int) * 340 + 16) :=
  createBlockNode_children_depth_one { type := "card" } [bareText] 0 (by decide) (by rfl)

/-- C6.  Five siblings, all with omitted x and y, walked at depth 0, land at
(40,120), (380,120), (40,340), (380,340), (40,560) in order. -/
theorem placeNodes_five_fallback_positions
    (n0 n1 n2 n3 n4 : BlueprintNode)
    (h0x : n0.dataOf.x = none) (h0y : n0.dataOf.y = none)
    (h1x : n1.dataOf.x = none) (h1y : n1.dataOf.y = none)
    (h2x : n2.dataOf.x = none) (h2y : n2.dataOf.y = none)
    (h3x : n3.dataOf.x = none) (h3y : n3.dataOf.y = none)
    (h4x : n4.dataOf.x = none) (h4y : n4.dataOf.y = none) :
    (placeNodes [n0, n1, n2, n3, n4] 0 0).map scenePos =
      [some (40, 120), some (380, 120), some (40, 340), some (380, 340), some (40, 560)] := by
  simp only [placeNodes_cons, placeNodes_nil, List.map_cons, List.map_nil,
    scenePos_renderSibling, effX, effY, h0x, h0y, h1x, h1y, h2x, h2y, h3x, h3y, h4x, h4y]
  norm_num

/-- C6 witness: five concrete kind-varied descriptors with omitted
coordinates. -/
theorem placeNodes_five_fallback_positions_witness :
    (placeNodes [BlueprintNode.node { type := "text" } [],
        .node { type := "card" } [], .node { type := "panel" } [],
        .node { type := "list" } [], .node { type := "callout" } []] 0 0).map scenePos =
      [some (40, 120), some (380, 120), some (40, 340), some (380, 340), some (40, 560)] :=
  placeNodes_five_fallback_positions _ _ _ _ _
    rfl rfl rfl rfl rfl rfl rfl rfl rfl rfl

/-- C7.  The walker dispatches by declared kind: a head descriptor whose
kind is anything other than "text" — the four listed container kinds and
arbitrary unknown kinds alike — renders as a container (the block renderer,
total, never a failure), and exactly the kind "text" renders as a text. -/
theorem placeNodes_dispatch (n : BlueprintNode) (rest : List BlueprintNode) (depth idx : Nat) :
    (n.dataOf.type ≠ "text" →
      ((placeNodes (n :: rest) depth idx).head?).map Scene.isContainer = some true) ∧
    (n.dataOf.type = "text" →
      ((placeNodes (n :: rest) depth idx).head?).map Scene.isContainer = some false) := by
  constructor
  · intro h
    simp [placeNodes_cons, renderSibling, h, createBlockNode_eq, Scene.isContainer]
  · intro h
    simp [placeNodes_cons, renderSibling, h, createTextNode, Scene.isContainer]

/-- C7 witness: an unknown kind "hero-banner" renders as a container. -/
theorem placeNodes_dispatch_witness :
    ((placeNodes [BlueprintNode.node { type := "hero-banner" } []] 0 0).head?).map
        Scene.isContainer = some true :=
  (placeNodes_dispatch (.node { type := "hero-banner" } []) [] 0 0).1 (by decide)

/-- Fixture: one frame, no description, one bare text plus one bare card
holding two nested bare texts. -/
def fixtureFrame : BlueprintFrame :=
  { name := some "F"
    nodes := some [bareText, .node { type := "card" } [bareText, bareText]] }

/-- C3 counterexample.  Rendering the claim's fixture creates 1 frame
container, but its descendant scene nodes number 4 — the text, the card's
container, and the two nested texts — not 3. -/
theorem renderBlueprint_roundtrip_counterexample :
    (renderFrames [fixtureFrame] 0 0).length = 1 ∧
    (renderFrames [fixtureFrame] 0 0).map Scene.descCount = [4] ∧
    (renderFrames [fixtureFrame] 0 0).map Scene.descCount ≠ [3] := by
  have hlen : (renderFrames [fixtureFrame] 0 0).length = 1 := by
    simp [renderFrames]
  have h : (renderFrames [fixtureFrame] 0 0).map Scene.descCount = [4] := by
    simp [renderFrames, fixtureFrame, bareText, placeNodes_cons, placeNodes_nil,
      renderSibling, BlueprintNode.dataOf, BlueprintNode.childrenOf, withXY,
      createTextNode, createBlockNode_eq, blockHeaders, jsTruthyStr,
      Scene.descCount, sceneListCount]
  exact ⟨hlen, h, by rw [h]; decide⟩

/-- C3 amended.  A Blueprint with exactly one Frame (no description)
containing one text Node and one card Node — the card itself without title
or content — holding two nested text Nodes renders exactly 1 frame
container with exactly 4 descendant scene nodes (the text, the card's
container, and the two nested texts), parented in descriptor order, and no
heading is synthesized from the absent description. -/
theorem renderBlueprint_roundtrip_amended
    (fr : BlueprintFrame) (d1 dc d2 d3 : BlueprintNodeData)
    (ns1 ns2 ns3 : List BlueprintNode) (ox cy : Int)
    (hdesc : jsTruthyStr fr.description = false)
    (hnodes : fr.nodes = some [.node d1 ns1, .node dc [.node d2 ns2, .node d3 ns3]])
    (h1 : d1.type = "text") (hc : dc.type = "card")
    (h2 : d2.type = "text") (h3 : d3.type = "text")
    (hct : jsTruthyStr dc.title = false) (hcc : jsTruthyStr dc.content = false) :
    (renderFrames [fr] ox cy).length = 1 ∧
    (renderFrames [fr] ox cy).map Scene.descCount = [4] ∧
    sceneShapeList (renderFrames [fr] ox cy) =
      [.f (jsStr fr.name "Gemini Frame")
        [.t (textChars d1), .f "Block" [.t (textChars d2), .t (textChars d3)]]] := by
  have hshape : sceneShapeList (renderFrames [fr] ox cy) =
      [.f (jsStr fr.name "Gemini Frame")
        [.t (textChars d1), .f "Block" [.t (textChars d2), .t (textChars d3)]]] := by
    simp [renderFrames, hdesc, hnodes, placeNodes_cons, placeNodes_nil, renderSibling,
      BlueprintNode.dataOf, BlueprintNode.childrenOf, h1, hc, h2, h3, withXY,
      createTextNode, createBlockNode_eq, blockHeaders, hct, hcc, blockProps,
      jsStr_of_falsy _ hct, sceneShape, sceneShapeList, textChars]
  refine ⟨by simp [renderFrames], ?_, hshape⟩
  simp [renderFrames, hdesc, hnodes, placeNodes_cons, placeNodes_nil, renderSibling,
    BlueprintNode.dataOf, BlueprintNode.childrenOf, h1, hc, h2, h3, withXY,
    createTextNode, createBlockNode_eq, blockHeaders, hct, hcc,
    Scene.descCount, sceneListCount]

/-- C3 witness: the amended round-trip evaluated on the concrete fixture. -/
theorem renderBlueprint_roundtrip_amended_witness :
    (renderFrames [fixtureFrame] 5 7).length = 1 ∧
    (renderFrames [fixtureFrame] 5 7).map Scene.descCount = [4] ∧
    sceneShapeList (renderFrames [fixtureFrame] 5 7) =
      [.f (jsStr fixtureFrame.name "Gemini Frame")
        [.t (textChars { type := "text" }),
         .f "Block" [.t (textChars { type := "text" }), .t (textChars { type := "text" })]]] :=
  renderBlueprint_roundtrip_amended fixtureFrame
    { type := "text" } { type := "card" } { type := "text" } { type := "text" }
    [] [] [] 5 7 rfl rfl rfl rfl rfl rfl rfl rfl

/-- A non-empty prompt string fails the `!params.prompt` guard. -/
theorem prompt_not_empty {s : String} (h : s ≠ "") : s.isEmpty = false := by
  cases hb : s.isEmpty
  · rfl
  · exact absurd ((String.isEmpty_iff s).mp hb) h

/-- C8.  A well-formed parse whose `frames` array is empty (or missing) hits
the `!blueprint?.frames?.length` guard: the thrown error is caught and
surfaced to the UI as a `generation-error` carrying the guidance text, and
rendering is never invoked — no frame container reaches the canvas. -/
theorem generateDesign_empty_frames_error
    (p : GenParams) (storedKey : Option String)
    (callOracle : String → String → Except String GeminiBlueprint)
    (renderFailure : Option String) (cx cy : Int) (apiKey : String) (b : GeminiBlueprint)
    (hp : p.prompt ≠ "")
    (hk : resolveKey p.apiKeyOverride storedKey = some apiKey)
    (hcall : callOracle apiKey (buildPrompt p.prompt p.mode (jsOrInt p.frameCount 3)) = .ok b)
    (hempty : framesLen b = 0) :
    (generateDesign p storedKey callOracle renderFailure cx cy).messages =
      [preparingMsg, .generationError emptyResultMsg] ∧
    (generateDesign p storedKey callOracle renderFailure cx cy).canvasFrames = [] := by
  simp [generateDesign, prompt_not_empty hp, hk, hcall, hempty]

/-- C8 witness: one concrete empty-frames attempt. -/
theorem generateDesign_empty_frames_error_witness :
    (generateDesign { prompt := "p", mode := "screen" } (some "k")
        (fun _ _ => .ok { frames := some [] }) none 0 0).messages =
      [preparingMsg, .generationError emptyResultMsg] ∧
    (generateDesign { prompt := "p", mode := "screen" } (some "k")
        (fun _ _ => .ok { frames := some [] }) none 0 0).canvasFrames = [] :=
  generateDesign_empty_frames_error _ _ _ _ 0 0 "k" { frames := some [] }
    (by decide) rfl rfl rfl

/-- C9.  Once the generation flow reaches its try block (non-empty prompt,
resolved api key), the emitted message list contains exactly one
`generation-error` precisely when a failure occurs anywhere inside —
remote-call failure (transport / extraction / parse), empty result, or a
rendering-phase exception — and none otherwise; the flow itself is a total
function, mirroring that no exception escapes `generateDesign`. -/
theorem generateDesign_single_error_message
    (p : GenParams) (storedKey : Option String)
    (callOracle : String → String → Except String GeminiBlueprint)
    (renderFailure : Option String) (cx cy : Int) (apiKey : String)
    (hp : p.prompt ≠ "")
    (hk : resolveKey p.apiKeyOverride storedKey = some apiKey) :
    errCount (generateDesign p storedKey callOracle renderFailure cx cy).messages =
      if genFailure (callOracle apiKey (buildPrompt p.prompt p.mode (jsOrInt p.frameCount 3)))
          renderFailure
      then 1 else 0 := by
  cases hcall : callOracle apiKey (buildPrompt p.prompt p.mode (jsOrInt p.frameCount 3)) with
  | error e =>
      simp [generateDesign, prompt_not_empty hp, hk, hcall, genFailure, errCount,
        isGenError, preparingMsg, List.filter]
  | ok b =>
      by_cases hb : framesLen b = 0
      · simp [generateDesign, prompt_not_empty hp, hk, hcall, hb, genFailure, errCount,
          isGenError, preparingMsg, List.filter]
      · cases renderFailure with
        | some e =>
            simp [generateDesign, prompt_not_empty hp, hk, hcall, hb, genFailure, errCount,
              isGenError, preparingMsg, drawingMsg, List.filter]
        | none =>
            simp [generateDesign, prompt_not_empty hp, hk, hcall, hb, genFailure, errCount,
              isGenError, preparingMsg, drawingMsg, List.filter]

/-- C9 witness: a failing remote call yields exactly one generation-error. -/
theorem generateDesign_single_error_message_witness :
    errCount (generateDesign { prompt := "p", mode := "screen" } (some "k")
        (fun _ _ => .error "boom") none 0 0).messages =
      if genFailure ((fun (_ _ : String) => (.error "boom" : Except String GeminiBlueprint)) "k"
          (buildPrompt "p" "screen" (jsOrInt none 3))) none
      then 1 else 0 :=
  generateDesign_single_error_message _ _ _ _ 0 0 "k" (by decide) rfl

/-- C10.  Under a non-empty prompt and a resolved key, the prompt sent to
the remote service is built with frame count 3 whenever the request's
`frameCount` is absent or zero (falsy), and with the requested value itself
whenever it is a non-zero number. -/
theorem generateDesign_frameCount_default
    (p : GenParams) (storedKey : Option String)
    (callOracle : String → String → Except String GeminiBlueprint)
    (renderFailure : Option String) (cx cy : Int) (apiKey : String)
    (hp : p.prompt ≠ "")
    (hk : resolveKey p.apiKeyOverride storedKey = some apiKey) :
    ((p.frameCount = none ∨ p.frameCount = some 0) →
      (generateDesign p storedKey callOracle renderFailure cx cy).sentPrompt =
        some (buildPrompt p.prompt p.mode 3)) ∧
    (∀ n : Int, n ≠ 0 → p.frameCount = some n →
      (generateDesign p storedKey callOracle renderFailure cx cy).sentPrompt =
        some (buildPrompt p.prompt p.mode n)) := by
  have hsent : (generateDesign p storedKey callOracle renderFailure cx cy).sentPrompt =
      some (buildPrompt p.prompt p.mode (jsOrInt p.frameCount 3)) := by
    cases hcall : callOracle apiKey (buildPrompt p.prompt p.mode (jsOrInt p.frameCount 3)) with
    | error e => simp [generateDesign, prompt_not_empty hp, hk, hcall]
    | ok b =>
        by_cases hb : framesLen b = 0
        · simp [generateDesign, prompt_not_empty hp, hk, hcall, hb]
        · cases renderFailure with
          | some e => simp [generateDesign, prompt_not_empty hp, hk, hcall, hb]
          | none => simp [generateDesign, prompt_not_empty hp, hk, hcall, hb]
  constructor
  · rintro (h | h) <;> rw [hsent, h] <;> rfl
  · intro n hn hfc
    rw [hsent, hfc]
    simp [jsOrInt, hn]

/-- C10 witness: frameCount 0 falls back to 3; frameCount 5 passes through. -/
theorem generateDesign_frameCount_default_witness :
    (generateDesign { prompt := "p", mode := "screen", frameCount := some 0 } (some "k")
        (fun _ _ => .error "x") none 0 0).sentPrompt =
      some (buildPrompt "p" "screen" 3) ∧
    (generateDesign { prompt := "p", mode := "screen", frameCount := some 5 } (some "k")
        (fun _ _ => .error "x") none 0 0).sentPrompt =
      some (buildPrompt "p" "screen" 5) :=
  ⟨(generateDesign_frameCount_default { prompt := "p", mode := "screen", frameCount := some 0 }
      (some "k") (fun _ _ => .error "x") none 0 0 "k" (by decide) rfl).1 (Or.inr rfl),
   (generateDesign_frameCount_default { prompt := "p", mode := "screen", frameCount := some 5 }
      (some "k") (fun _ _ => .error "x") none 0 0 "k" (by decide) rfl).2 5 (by decide) rfl⟩
